import Mathlib

/-!
# LINE trip-list webhook server (`webhook-server/api/main.go`)

A shallow embedding of the HTTP handler of the webhook server and the
properties of its routing, webhook dispatch and push path.

Conventions of the embedding.

* A Go `string` is a sequence of bytes (`GoString`); `len` and slicing count
  bytes, `==` compares bytes, `fmt.Sprintf("User-%s", x)` is concatenation.
* `http.ResponseWriter` is a value threaded through the handlers.  It keeps
  the header map, the status line once it has been written (together with the
  headers frozen at that moment) and the values encoded to the body; the
  bytes that `encoding/json` produces for a value are not modelled.
* Effects on the outside world are recorded in `World`: the messages handed to
  `notifyiOSApp` and the requests submitted through `bot.PushMessage`, both in
  call order.  Calls to `log.Printf` are not recorded.
* Library code the handler calls into (`os.Getenv`, `webhook.ParseRequest`,
  the JSON decoder, the messaging API client) is taken as a parameter.
* A run-time panic (here only a slice out of range) is an `Except.error`.
-/

namespace LineTripList

/-! ## Go strings -/

/-- A Go string, an immutable sequence of bytes. -/
abbrev GoString := List UInt8

/-- UTF-8 encoding of one code point, as the Go compiler stores a literal. -/
def utf8EncodeRune (c : Nat) : List UInt8 :=
  if c < 0x80 then [c.toUInt8]
  else if c < 0x800 then [(0xC0 + c / 64).toUInt8, (0x80 + c % 64).toUInt8]
  else if c < 0x10000 then
    [(0xE0 + c / 4096).toUInt8, (0x80 + c / 64 % 64).toUInt8, (0x80 + c % 64).toUInt8]
  else
    [(0xF0 + c / 262144).toUInt8, (0x80 + c / 4096 % 64).toUInt8,
     (0x80 + c / 64 % 64).toUInt8, (0x80 + c % 64).toUInt8]

/-- The bytes of a string literal of the source. -/
def str (s : String) : GoString :=
  s.toList.flatMap (fun c => utf8EncodeRune c.toNat)

/-- Run-time panics. -/
inductive Panic
  | sliceBounds (hi len : Nat)
  deriving DecidableEq, Repr

/-- The slice expression `s[:hi]`, which panics when `hi` exceeds `len(s)`. -/
def sliceTo (s : GoString) (hi : Nat) : Except Panic GoString :=
  if hi ≤ s.length then .ok (s.take hi) else .error (.sliceBounds hi s.length)

/-- Go `error` values, as far as the handler tells them apart:
`ErrInvalidSignature` is the value `linebot.ErrInvalidSignature` that
`handleWebhook` compares the parse error with, `other` is any other error. -/
inductive GoError
  | ErrInvalidSignature
  | other (msg : GoString)
  deriving DecidableEq, Repr

/-! ## Webhook events and messaging API requests -/

/-- Modelled from the spec: `webhook.GroupSource` of the LINE SDK, a source
with a group id and a user id. -/
structure GroupSource where
  GroupId : GoString
  UserId : GoString
  deriving DecidableEq, Repr

/-- Modelled from the spec: `webhook.SourceInterface` of the LINE SDK, a group
source or a source of another kind. -/
inductive SourceInterface
  | GroupSource (g : GroupSource)
  | other (kind : GoString)
  deriving DecidableEq, Repr

/-- Modelled from the spec: `webhook.TextMessageContent` of the LINE SDK. -/
structure TextMessageContent where
  Text : GoString
  deriving DecidableEq, Repr

/-- Modelled from the spec: `webhook.MessageContentInterface` of the LINE SDK,
a text content or a content of another kind. -/
inductive MessageContentInterface
  | TextMessageContent (m : TextMessageContent)
  | other (kind : GoString)
  deriving DecidableEq, Repr

/-- Modelled from the spec: `webhook.MessageEvent` of the LINE SDK, with its
source, its timestamp in epoch milliseconds and its content. -/
structure MessageEvent where
  Source : SourceInterface
  Timestamp : Int
  Message : MessageContentInterface
  deriving DecidableEq, Repr

/-- Modelled from the spec: `webhook.EventInterface` of the LINE SDK, a message
event or an event of another kind. -/
inductive EventInterface
  | MessageEvent (e : MessageEvent)
  | other (kind : GoString)
  deriving DecidableEq, Repr

/-- Modelled from the spec: `webhook.CallbackRequest` of the LINE SDK, the
batch of events of one callback. -/
structure CallbackRequest where
  Events : List EventInterface
  deriving DecidableEq, Repr

/-- Modelled from the spec: `messaging_api.TextMessage` of the LINE SDK. -/
structure TextMessage where
  Text : GoString
  deriving DecidableEq, Repr

/-- Modelled from the spec: `messaging_api.MessageInterface` of the LINE SDK. -/
inductive MessageInterface
  | TextMessage (m : TextMessage)
  | other (kind : GoString)
  deriving DecidableEq, Repr

/-- Modelled from the spec: `messaging_api.PushMessageRequest` of the LINE SDK,
with the fields the handler fills in. -/
structure PushMessageRequest where
  To : GoString
  Messages : List MessageInterface
  deriving DecidableEq, Repr

/-- The message record sent on to the iOS application. -/
structure AppMessage where
  GroupID : GoString
  UserID : GoString
  Message : GoString
  Timestamp : Int
  UserName : GoString
  deriving DecidableEq, Repr

/-- The anonymous struct `req` that `sendMessage` decodes the body into. -/
structure SendReq where
  GroupID : GoString
  Message : GoString
  deriving DecidableEq, Repr

/-! ## HTTP requests and responses -/

/-- An HTTP header map. -/
abbrev Header := List (GoString × GoString)

/-- The method `Header.Set`: the value of `key` is replaced. -/
def Header.Set (h : Header) (key value : GoString) : Header :=
  h.filter (fun kv => kv.1 ≠ key) ++ [(key, value)]

/-- The method `Header.Get`: the value of `key`, or the empty string. -/
def Header.Get (h : Header) (key : GoString) : GoString :=
  (h.lookup key).getD []

/-- The `URL` of a request. -/
structure URL where
  Path : GoString
  deriving DecidableEq, Repr

/-- An `http.Request`, with the parts the handler or the libraries read. -/
structure Request where
  Method : GoString
  URL : URL
  Header : Header
  Body : GoString
  deriving DecidableEq, Repr

/-- A JSON object with string members, the value given to `Encode`. -/
abbrev JSONObject := List (GoString × GoString)

/-- An `http.ResponseWriter`: the header map, the status and the headers sent
with it once the header has been written, and the values encoded to the body. -/
structure ResponseWriter where
  header : Header
  written : Option (Nat × Header)
  body : List JSONObject
  deriving DecidableEq, Repr

/-- The writer a handler starts with. -/
def ResponseWriter.fresh : ResponseWriter :=
  { header := [], written := none, body := [] }

/-- The call `w.Header().Set(key, value)`. -/
def ResponseWriter.HeaderSet (w : ResponseWriter) (key value : GoString) : ResponseWriter :=
  { w with header := w.header.Set key value }

/-- The call `w.WriteHeader(code)`: only the first call has an effect. -/
def ResponseWriter.WriteHeader (w : ResponseWriter) (code : Nat) : ResponseWriter :=
  match w.written with
  | some _ => w
  | none => { w with written := some (code, w.header) }

/-- The call `json.NewEncoder(w).Encode(v)`: a write, which sends the header
with status 200 first when it has not been written. -/
def ResponseWriter.Encode (w : ResponseWriter) (v : JSONObject) : ResponseWriter :=
  let w1 := w.WriteHeader 200
  { w1 with body := w1.body ++ [v] }

/-- The response a client receives. -/
structure Response where
  status : Nat
  header : Header
  body : List JSONObject
  deriving DecidableEq, Repr

/-- The response sent when the handler returns: a handler that wrote nothing
answers 200 with an empty body. -/
def ResponseWriter.finish (w : ResponseWriter) : Response :=
  match w.written with
  | some (code, h) => { status := code, header := h, body := w.body }
  | none => { status := 200, header := w.header, body := w.body }

def StatusOK : Nat := 200

def StatusNotFound : Nat := 404

def StatusInternalServerError : Nat := 500

/-! ## The server and its surroundings -/

/-- The messaging API client: the error that `PushMessage` returns for a
request and a retry key, `none` standing for `nil`. -/
structure MessagingApiAPI where
  PushMessage : PushMessageRequest → GoString → Option GoError

/-- The server; its `blob` client is never used and is left out. -/
structure Server where
  bot : MessagingApiAPI

/-- Library functions the handler calls: `os.Getenv`, `webhook.ParseRequest`
and the JSON decoding of a request body into `req`. -/
structure Env where
  Getenv : GoString → GoString
  ParseRequest : GoString → Request → Except GoError CallbackRequest
  Decode : GoString → Except GoError SendReq

/-- Effects of the handler on the outside, in call order. -/
structure World where
  notified : List AppMessage
  pushed : List (PushMessageRequest × GoString)
  deriving DecidableEq, Repr

/-! ## The handlers -/

def healthCheck (w : ResponseWriter) (_r : Request) : ResponseWriter :=
  let w := w.HeaderSet (str "Content-Type") (str "application/json")
  w.Encode [(str "status", str "ok"),
            (str "service", str "LINE Trip List Webhook"),
            (str "timestamp", str "1699574400")]

def Server.notifyiOSApp (_s : Server) (message : AppMessage) (world : World) : World :=
  { world with notified := world.notified ++ [message] }

def Server.handleTextMessage (s : Server) (event : MessageEvent) (message : TextMessageContent)
    (world : World) : Except Panic World :=
  match event.Source with
  | .GroupSource groupSource => do
    let (userID, userName) ←
      (if groupSource.UserId ≠ str "" then
        (if groupSource.UserId.length > 8 then do
          let head ← sliceTo groupSource.UserId 8
          pure (groupSource.UserId, str "User-" ++ head)
        else
          pure (groupSource.UserId, str "User-" ++ groupSource.UserId))
      else
        pure (str "", str "Unknown User") : Except Panic (GoString × GoString))
    let appMessage : AppMessage :=
      { GroupID := groupSource.GroupId
        UserID := userID
        Message := message.Text
        Timestamp := event.Timestamp
        UserName := userName }
    pure (s.notifyiOSApp appMessage world)
  | _ => pure world

/-- The loop `for _, event := range cb.Events` of `handleWebhook`. -/
def Server.rangeEvents (s : Server) : List EventInterface → World → Except Panic World
  | [], world => pure world
  | event :: rest, world => do
    let world1 ←
      (match event with
      | .MessageEvent e =>
        (match e.Message with
        | .TextMessageContent message => s.handleTextMessage e message world
        | _ => pure world)
      | _ => pure world : Except Panic World)
    s.rangeEvents rest world1

def Server.handleWebhook (env : Env) (s : Server) (w : ResponseWriter) (r : Request)
    (world : World) : Except Panic (ResponseWriter × World) :=
  match env.ParseRequest (env.Getenv (str "LINE_CHANNEL_SECRET")) r with
  | .error err =>
    if err = GoError.ErrInvalidSignature then
      pure (w.WriteHeader 400, world)
    else
      pure (w.WriteHeader 500, world)
  | .ok cb => do
    let world1 ← s.rangeEvents cb.Events world
    pure (w.WriteHeader StatusOK, world1)

def Server.sendMessage (env : Env) (s : Server) (w : ResponseWriter) (r : Request)
    (world : World) : ResponseWriter × World :=
  if r.Method ≠ str "POST" then
    (w.WriteHeader 405, world)
  else
    match env.Decode r.Body with
    | .error _ => (w.WriteHeader 400, world)
    | .ok req =>
      if req.GroupID = str "" ∨ req.Message = str "" then
        (w.WriteHeader 400, world)
      else
        let pushReq : PushMessageRequest :=
          { To := req.GroupID, Messages := [.TextMessage { Text := req.Message }] }
        let world1 : World := { world with pushed := world.pushed ++ [(pushReq, str "")] }
        match s.bot.PushMessage pushReq (str "") with
        | some _ => (w.WriteHeader 500, world1)
        | none =>
          let w1 := w.HeaderSet (str "Content-Type") (str "application/json")
          (w1.Encode [(str "status", str "success")], world1)

/-- The entry point; `server` is the package variable set by `init`, `none`
when the credentials were missing. -/
def Handler (env : Env) (server : Option Server) (w : ResponseWriter) (r : Request)
    (world : World) : Except Panic (ResponseWriter × World) :=
  let w := w.HeaderSet (str "Access-Control-Allow-Origin") (str "*")
  let w := w.HeaderSet (str "Access-Control-Allow-Methods") (str "GET, POST, OPTIONS")
  let w := w.HeaderSet (str "Access-Control-Allow-Headers") (str "Content-Type")
  if r.Method = str "OPTIONS" then
    pure (w.WriteHeader StatusOK, world)
  else if r.URL.Path = str "/health" then
    pure (healthCheck w r, world)
  else if r.URL.Path = str "/webhook" then
    match server with
    | none =>
      pure ((w.WriteHeader StatusInternalServerError).Encode
        [(str "error", str "Server not initialized")], world)
    | some s => s.handleWebhook env w r world
  else if r.URL.Path = str "/send" then
    match server with
    | none =>
      pure ((w.WriteHeader StatusInternalServerError).Encode
        [(str "error", str "Server not initialized")], world)
    | some s => pure (s.sendMessage env w r world)
  else if r.URL.Path = str "/" then
    let w := w.HeaderSet (str "Content-Type") (str "application/json")
    pure (w.Encode [(str "status", str "LINE Trip List Webhook Server"),
                    (str "version", str "1.0.0"),
                    (str "endpoints", str "/health, /webhook, /send")], world)
  else
    pure ((w.WriteHeader StatusNotFound).Encode [(str "error", str "Not Found")], world)

/-- One request served: `Handler` runs on a fresh writer and the response is
sent when it returns. -/
def ServeHTTP (env : Env) (server : Option Server) (r : Request) (world : World) :
    Except Panic (Response × World) := do
  let (w, world1) ← Handler env server ResponseWriter.fresh r world
  pure (w.finish, world1)

/-! ## Definitions used by the statements -/

deriving instance DecidableEq for Except

/-- The message `handleTextMessage` builds for a group source, a timestamp and
a text content, with the user name as lines 131 to 143 of the source derive it. -/
def appMessageOf (g : GroupSource) (ts : Int) (message : TextMessageContent) : AppMessage :=
  { GroupID := g.GroupId
    UserID := g.UserId
    Message := message.Text
    Timestamp := ts
    UserName :=
      if g.UserId = [] then str "Unknown User"
      else if 8 < g.UserId.length then str "User-" ++ g.UserId.take 8
      else str "User-" ++ g.UserId }

/-- The message the event loop forwards for one event, if any. -/
def forwardedOf : EventInterface → Option AppMessage
  | .MessageEvent ⟨.GroupSource g, ts, .TextMessageContent message⟩ =>
    some (appMessageOf g ts message)
  | _ => none

/-- The classifier as the specification words it: an event is kept when it is
a message event with a group source and a text content, and the kept event
gives its group id, user id, text and timestamp. -/
def kept : EventInterface → Option (GoString × GoString × GoString × Int)
  | .MessageEvent e =>
    match e.Source, e.Message with
    | .GroupSource g, .TextMessageContent t => some (g.GroupId, g.UserId, t.Text, e.Timestamp)
    | _, _ => none
  | .other _ => none

/-- Group id, user id, text and timestamp of a forwarded message. -/
def AppMessage.core (m : AppMessage) : GoString × GoString × GoString × Int :=
  (m.GroupID, m.UserID, m.Message, m.Timestamp)

/-- What a client and the outside observe of one served request: status, body
and the effects recorded. -/
structure Observed where
  status : Nat
  body : List JSONObject
  world : World
  deriving DecidableEq, Repr

def observe (p : Response × World) : Observed :=
  { status := p.1.status, body := p.1.body, world := p.2 }

/-! ### Sample inputs -/

/-- A server whose pushes succeed. -/
def okServer : Server := { bot := { PushMessage := fun _ _ => none } }

/-- A server whose pushes fail. -/
def failingServer : Server := { bot := { PushMessage := fun _ _ => some (.other (str "timeout")) } }

/-- The world before any request. -/
def World.start : World := { notified := [], pushed := [] }

def groupText (g u t : String) (ts : Int) : EventInterface :=
  .MessageEvent
    { Source := .GroupSource { GroupId := str g, UserId := str u }
      Timestamp := ts
      Message := .TextMessageContent { Text := str t } }

def sampleBatch : List EventInterface :=
  [ .other (str "follow"),
    groupText "G1" "U0123456789" "hello" 10,
    .MessageEvent { Source := .other (str "user"), Timestamp := 11,
                    Message := .TextMessageContent { Text := str "direct" } },
    .MessageEvent { Source := .GroupSource { GroupId := str "G1", UserId := str "abc" },
                    Timestamp := 12, Message := .other (str "image") },
    groupText "G2" "" "bye" 13 ]

/-- Surroundings in which parsing yields `evs` and decoding yields `req`. -/
def envOk (evs : List EventInterface) (req : SendReq) : Env :=
  { Getenv := fun _ => str "secret"
    ParseRequest := fun _ _ => .ok { Events := evs }
    Decode := fun _ => .ok req }

/-- Surroundings in which parsing and decoding fail with `err`. -/
def envErr (err : GoError) : Env :=
  { Getenv := fun _ => str "secret"
    ParseRequest := fun _ _ => .error err
    Decode := fun _ => .error err }

def request (method path : String) : Request :=
  { Method := str method, URL := { Path := str path }, Header := [], Body := [] }

/-- The three CORS headers `Handler` sets first. -/
def corsHeader : Header :=
  [(str "Access-Control-Allow-Origin", str "*"),
   (str "Access-Control-Allow-Methods", str "GET, POST, OPTIONS"),
   (str "Access-Control-Allow-Headers", str "Content-Type")]

/-- The writer `Handler` routes with: a fresh one carrying the CORS headers. -/
def corsWriter : ResponseWriter :=
  { header := corsHeader, written := none, body := [] }

/-- The push request `sendMessage` builds from a decoded body. -/
def pushRequestOf (req : SendReq) : PushMessageRequest :=
  { To := req.GroupID, Messages := [.TextMessage { Text := req.Message }] }

/-! ## Basic facts -/

theorem str_empty : str "" = [] := rfl

theorem sliceTo_of_le (s : GoString) (hi : Nat) (h : hi ≤ s.length) :
    sliceTo s hi = .ok (s.take hi) := by
  simp [sliceTo, h]

/-- On a group source `handleTextMessage` returns, having handed exactly one
message to the sink. -/
theorem handleTextMessage_group (s : Server) (g : GroupSource) (ts : Int)
    (content : MessageContentInterface) (message : TextMessageContent) (world : World) :
    s.handleTextMessage ⟨.GroupSource g, ts, content⟩ message world
      = .ok { world with notified := world.notified ++ [appMessageOf g ts message] } := by
  unfold Server.handleTextMessage appMessageOf Server.notifyiOSApp
  simp only [str_empty]
  by_cases h0 : g.UserId = []
  · simp [h0, pure, Except.pure, bind, Except.bind]
  · by_cases h8 : 8 < g.UserId.length
    · have hs : sliceTo g.UserId 8 = .ok (g.UserId.take 8) := sliceTo_of_le _ _ (Nat.le_of_lt h8)
      simp [h0, h8, hs, pure, Except.pure, bind, Except.bind]
    · simp [h0, h8, pure, Except.pure, bind, Except.bind]

/-- On any other source `handleTextMessage` returns without an effect. -/
theorem handleTextMessage_other (s : Server) (kind : GoString) (ts : Int)
    (content : MessageContentInterface) (message : TextMessageContent) (world : World) :
    s.handleTextMessage ⟨.other kind, ts, content⟩ message world = .ok world := by
  simp [Server.handleTextMessage, pure, Except.pure]

/-- The event loop always returns: it appends the forwarded messages, in the
order of the batch, and leaves the pushes alone. -/
theorem rangeEvents_eq (s : Server) (evs : List EventInterface) (world : World) :
    s.rangeEvents evs world
      = .ok { world with notified := world.notified ++ evs.filterMap forwardedOf } := by
  induction evs generalizing world with
  | nil => simp [Server.rangeEvents, pure, Except.pure]
  | cons event rest ih =>
    unfold Server.rangeEvents
    match event with
    | .other kind => simp [forwardedOf, ih, pure, Except.pure, bind, Except.bind]
    | .MessageEvent ⟨src, ts, .other kind⟩ =>
      simp [forwardedOf, ih, pure, Except.pure, bind, Except.bind]
    | .MessageEvent ⟨.other kind, ts, .TextMessageContent message⟩ =>
      simp [forwardedOf, ih, handleTextMessage_other, bind, Except.bind]
    | .MessageEvent ⟨.GroupSource g, ts, .TextMessageContent message⟩ =>
      simp [forwardedOf, ih, handleTextMessage_group, bind, Except.bind]

theorem core_forwardedOf (evs : List EventInterface) :
    (evs.filterMap forwardedOf).map AppMessage.core = evs.filterMap kept := by
  induction evs with
  | nil => simp
  | cons event rest ih =>
    match event with
    | .other kind => simpa [forwardedOf, kept] using ih
    | .MessageEvent ⟨.GroupSource g, ts, .other kind⟩ => simpa [forwardedOf, kept] using ih
    | .MessageEvent ⟨.other k, ts, .other kind⟩ => simpa [forwardedOf, kept] using ih
    | .MessageEvent ⟨.other kind, ts, .TextMessageContent message⟩ =>
      simpa [forwardedOf, kept] using ih
    | .MessageEvent ⟨.GroupSource g, ts, .TextMessageContent message⟩ =>
      simpa [forwardedOf, kept, appMessageOf, AppMessage.core] using ih

/-! ## Routing -/

theorem webhook_ne_health : str "/webhook" ≠ str "/health" := by decide

theorem send_ne_health : str "/send" ≠ str "/health" := by decide

theorem send_ne_webhook : str "/send" ≠ str "/webhook" := by decide

theorem root_ne_health : str "/" ≠ str "/health" := by decide

theorem root_ne_webhook : str "/" ≠ str "/webhook" := by decide

theorem root_ne_send : str "/" ≠ str "/send" := by decide

theorem post_ne_options : str "POST" ≠ str "OPTIONS" := by decide

theorem cors_set :
    ((ResponseWriter.fresh.HeaderSet (str "Access-Control-Allow-Origin") (str "*")).HeaderSet
        (str "Access-Control-Allow-Methods") (str "GET, POST, OPTIONS")).HeaderSet
        (str "Access-Control-Allow-Headers") (str "Content-Type") = corsWriter := by
  decide

/-- An OPTIONS request is answered before the path is looked at. -/
theorem ServeHTTP_options (env : Env) (server : Option Server) (r : Request) (world : World)
    (hm : r.Method = str "OPTIONS") :
    ServeHTTP env server r world
      = .ok ({ status := 200, header := corsHeader, body := [] }, world) := by
  simp only [ServeHTTP, Handler, cors_set, hm, if_true]
  rfl

/-- In the ready state `/webhook` is served by `handleWebhook`, run on the
writer that carries the CORS headers. -/
theorem ServeHTTP_webhook (env : Env) (s : Server) (r : Request) (world : World)
    (hm : r.Method ≠ str "OPTIONS") (hp : r.URL.Path = str "/webhook") :
    ServeHTTP env (some s) r world
      = (s.handleWebhook env corsWriter r world).map (fun p => (p.1.finish, p.2)) := by
  simp only [ServeHTTP, Handler, cors_set, hm, hp, webhook_ne_health, if_true, if_false]
  cases s.handleWebhook env corsWriter r world <;> rfl

/-- In the ready state `/send` is served by `sendMessage`. -/
theorem ServeHTTP_send (env : Env) (s : Server) (r : Request) (world : World)
    (hm : r.Method ≠ str "OPTIONS") (hp : r.URL.Path = str "/send") :
    ServeHTTP env (some s) r world
      = .ok ((s.sendMessage env corsWriter r world).1.finish,
             (s.sendMessage env corsWriter r world).2) := by
  simp only [ServeHTTP, Handler, cors_set, hm, hp, send_ne_health, send_ne_webhook, if_true,
    if_false]
  rfl

theorem ServeHTTP_uninitialized (env : Env) (r : Request) (world : World)
    (hm : r.Method ≠ str "OPTIONS")
    (hp : r.URL.Path = str "/webhook" ∨ r.URL.Path = str "/send") :
    ServeHTTP env none r world
      = .ok ({ status := 500, header := corsHeader,
               body := [[(str "error", str "Server not initialized")]] }, world) := by
  rcases hp with hp | hp
  · simp only [ServeHTTP, Handler, cors_set, hm, hp, webhook_ne_health, if_true, if_false]
    rfl
  · simp only [ServeHTTP, Handler, cors_set, hm, hp, send_ne_health, send_ne_webhook, if_true,
      if_false]
    rfl

theorem ServeHTTP_health (env : Env) (server : Option Server) (r : Request) (world : World)
    (hm : r.Method ≠ str "OPTIONS") (hp : r.URL.Path = str "/health") :
    (ServeHTTP env server r world).map observe
      = .ok ⟨200, [[(str "status", str "ok"), (str "service", str "LINE Trip List Webhook"),
                    (str "timestamp", str "1699574400")]], world⟩ := by
  simp only [ServeHTTP, Handler, cors_set, hm, hp, if_true, if_false]
  rfl

theorem ServeHTTP_root (env : Env) (server : Option Server) (r : Request) (world : World)
    (hm : r.Method ≠ str "OPTIONS") (hp : r.URL.Path = str "/") :
    (ServeHTTP env server r world).map observe
      = .ok ⟨200, [[(str "status", str "LINE Trip List Webhook Server"),
                    (str "version", str "1.0.0"),
                    (str "endpoints", str "/health, /webhook, /send")]], world⟩ := by
  simp only [ServeHTTP, Handler, cors_set, hm, hp, root_ne_health, root_ne_webhook, root_ne_send,
    if_true, if_false]
  rfl

theorem ServeHTTP_not_found (env : Env) (server : Option Server) (r : Request) (world : World)
    (hm : r.Method ≠ str "OPTIONS") (h1 : r.URL.Path ≠ str "/health")
    (h2 : r.URL.Path ≠ str "/webhook") (h3 : r.URL.Path ≠ str "/send")
    (h4 : r.URL.Path ≠ str "/") :
    ServeHTTP env server r world
      = .ok ({ status := 404, header := corsHeader, body := [[(str "error", str "Not Found")]] },
             world) := by
  simp only [ServeHTTP, Handler, cors_set, hm, h1, h2, h3, h4, if_false]
  rfl

/-- What `sendMessage` answers and does, case by case. -/
theorem sendMessage_eq (env : Env) (s : Server) (r : Request) (world : World) :
    s.sendMessage env corsWriter r world =
      if r.Method ≠ str "POST" then (corsWriter.WriteHeader 405, world)
      else match env.Decode r.Body with
        | .error _ => (corsWriter.WriteHeader 400, world)
        | .ok req =>
          if req.GroupID = [] ∨ req.Message = [] then (corsWriter.WriteHeader 400, world)
          else if (s.bot.PushMessage (pushRequestOf req) (str "")).isSome then
            (corsWriter.WriteHeader 500,
              { world with pushed := world.pushed ++ [(pushRequestOf req, str "")] })
          else
            ((corsWriter.HeaderSet (str "Content-Type") (str "application/json")).Encode
                [(str "status", str "success")],
              { world with pushed := world.pushed ++ [(pushRequestOf req, str "")] }) := by
  unfold Server.sendMessage pushRequestOf
  simp only [str_empty]
  split
  · rfl
  · cases env.Decode r.Body with
    | error e => rfl
    | ok req =>
      simp only
      split
      · rfl
      · cases s.bot.PushMessage ⟨req.GroupID, [.TextMessage ⟨req.Message⟩]⟩ [] <;> simp

/-! ## The webhook path -/

/-- C1: for a group source, `handleTextMessage` returns (the slice never
panics) and the message it hands to the sink has the user name
"Unknown User" when the user id is empty, "User-" followed by the first 8
bytes of the user id when the id is longer than 8, and "User-" followed by the
whole id otherwise; "abc" gives "User-abc" and "abcdefghij" gives
"User-abcdefgh". -/
theorem display_name_derivation (s : Server) (g : GroupSource) (ts : Int)
    (content : MessageContentInterface) (message : TextMessageContent) (world : World) :
    s.handleTextMessage ⟨.GroupSource g, ts, content⟩ message world
        = .ok { notified := world.notified ++
                  [{ GroupID := g.GroupId
                     UserID := g.UserId
                     Message := message.Text
                     Timestamp := ts
                     UserName :=
                       if g.UserId = [] then str "Unknown User"
                       else if 8 < g.UserId.length then str "User-" ++ g.UserId.take 8
                       else str "User-" ++ g.UserId }]
                pushed := world.pushed }
      ∧ okServer.handleTextMessage ⟨.GroupSource ⟨str "G", str ""⟩, 1, content⟩ ⟨str "hi"⟩
            World.start
          = .ok { notified := [⟨str "G", str "", str "hi", 1, str "Unknown User"⟩], pushed := [] }
      ∧ okServer.handleTextMessage ⟨.GroupSource ⟨str "G", str "abc"⟩, 1, content⟩ ⟨str "hi"⟩
            World.start
          = .ok { notified := [⟨str "G", str "abc", str "hi", 1, str "User-abc"⟩], pushed := [] }
      ∧ okServer.handleTextMessage ⟨.GroupSource ⟨str "G", str "abcdefghij"⟩, 1, content⟩
            ⟨str "hi"⟩ World.start
          = .ok { notified := [⟨str "G", str "abcdefghij", str "hi", 1, str "User-abcdefgh"⟩],
                  pushed := [] } := by
  refine ⟨?_, ?_, ?_, ?_⟩
  · rw [handleTextMessage_group]; rfl
  · rw [handleTextMessage_group]; decide
  · rw [handleTextMessage_group]; decide
  · rw [handleTextMessage_group]; decide

/-- C2: when the request reaches the parse step of `/webhook` in the ready
state and parsing yields a batch, the request is answered and the messages
handed to the sink during it are, in batch order, one per event that is a
message event with a group source and a text content, each with that event's
group id, user id, text and timestamp; nothing is handed over for any other
event and nothing is pushed. -/
theorem webhook_forwards_kept_events (env : Env) (s : Server) (r : Request) (world : World)
    (cb : CallbackRequest) (hm : r.Method ≠ str "OPTIONS") (hp : r.URL.Path = str "/webhook")
    (hparse : env.ParseRequest (env.Getenv (str "LINE_CHANNEL_SECRET")) r = .ok cb) :
    ∃ resp new,
      ServeHTTP env (some s) r world
          = .ok (resp, { notified := world.notified ++ new, pushed := world.pushed })
        ∧ new.map AppMessage.core = cb.Events.filterMap kept := by
  refine ⟨corsWriter.WriteHeader StatusOK |>.finish, cb.Events.filterMap forwardedOf, ?_,
    core_forwardedOf _⟩
  rw [ServeHTTP_webhook env s r world hm hp]
  simp [Server.handleWebhook, hparse, rangeEvents_eq, bind, Except.bind, pure, Except.pure,
    Except.map]

theorem webhook_forwards_kept_events_witness :
    (request "POST" "/webhook").Method ≠ str "OPTIONS"
      ∧ (request "POST" "/webhook").URL.Path = str "/webhook"
      ∧ sampleBatch.filterMap kept
          = [(str "G1", str "U0123456789", str "hello", 10), (str "G2", str "", str "bye", 13)]
      ∧ ∃ resp new,
          ServeHTTP (envOk sampleBatch ⟨[], []⟩) (some okServer) (request "POST" "/webhook")
              World.start
            = .ok (resp, { notified := World.start.notified ++ new,
                           pushed := World.start.pushed })
          ∧ new.map AppMessage.core = (CallbackRequest.mk sampleBatch).Events.filterMap kept :=
  ⟨by decide, by decide, by decide,
   webhook_forwards_kept_events (envOk sampleBatch ⟨[], []⟩) okServer (request "POST" "/webhook")
     World.start ⟨sampleBatch⟩ (by decide) (by decide) rfl⟩

/-- C3, as the claim states it, fails: a group text event whose group id and
text are both empty is handed to the sink, with the empty group id and the
empty text. -/
theorem empty_group_and_text_forwarded :
    okServer.handleTextMessage
        ⟨.GroupSource ⟨str "", str "U1"⟩, 7, .TextMessageContent ⟨str ""⟩⟩ ⟨str ""⟩ World.start
      = .ok { notified := [⟨str "", str "U1", str "", 7, str "User-U1"⟩], pushed := [] } := by
  decide

/-- C3, amended: `handleTextMessage` makes no emptiness check; for every group
source and every text content, empty or not, it hands exactly one message to
the sink, whose group id and text are those of the event. -/
theorem group_text_forwarded_unchecked (s : Server) (g : GroupSource) (ts : Int)
    (content : MessageContentInterface) (message : TextMessageContent) (world : World) :
    ∃ m, s.handleTextMessage ⟨.GroupSource g, ts, content⟩ message world
          = .ok { notified := world.notified ++ [m], pushed := world.pushed }
      ∧ m.GroupID = g.GroupId ∧ m.Message = message.Text :=
  ⟨appMessageOf g ts message, handleTextMessage_group s g ts content message world, rfl, rfl⟩

/-- C4: when the request reaches the parse step of `/webhook` in the ready
state and parsing fails, the status is 400 if the error is
`ErrInvalidSignature` and 500 for any other error, the body is empty, and
nothing is handed to the sink or pushed. -/
theorem webhook_parse_failure (env : Env) (s : Server) (r : Request) (world : World)
    (err : GoError) (hm : r.Method ≠ str "OPTIONS") (hp : r.URL.Path = str "/webhook")
    (hparse : env.ParseRequest (env.Getenv (str "LINE_CHANNEL_SECRET")) r = .error err) :
    (ServeHTTP env (some s) r world).map observe
      = .ok ⟨if err = GoError.ErrInvalidSignature then 400 else 500, [], world⟩ := by
  rw [ServeHTTP_webhook env s r world hm hp]
  by_cases he : err = GoError.ErrInvalidSignature
  · simp [Server.handleWebhook, hparse, he, pure, Except.pure, Except.map, observe]
    decide
  · simp [Server.handleWebhook, hparse, he, pure, Except.pure, Except.map, observe]
    decide

theorem webhook_parse_failure_witness :
    ((request "POST" "/webhook").Method ≠ str "OPTIONS"
      ∧ (ServeHTTP (envErr .ErrInvalidSignature) (some okServer) (request "POST" "/webhook")
          World.start).map observe = .ok ⟨400, [], World.start⟩)
    ∧ (ServeHTTP (envErr (.other (str "body read failure"))) (some okServer)
          (request "POST" "/webhook") World.start).map observe = .ok ⟨500, [], World.start⟩ :=
  ⟨⟨by decide,
    webhook_parse_failure (envErr .ErrInvalidSignature) okServer (request "POST" "/webhook")
      World.start .ErrInvalidSignature (by decide) (by decide) rfl⟩,
   webhook_parse_failure (envErr (.other (str "body read failure"))) okServer
     (request "POST" "/webhook") World.start (.other (str "body read failure"))
     (by decide) (by decide) rfl⟩

/-- C9: in the ready state, a request to `/webhook` whose parsing yields a
batch is answered with status 200 and an empty body, whatever the batch holds
and whatever was handed to the sink before or during the request. -/
theorem webhook_acknowledged (env : Env) (s : Server) (r : Request) (world : World)
    (cb : CallbackRequest) (hp : r.URL.Path = str "/webhook")
    (hparse : env.ParseRequest (env.Getenv (str "LINE_CHANNEL_SECRET")) r = .ok cb) :
    (ServeHTTP env (some s) r world).map (fun p => (p.1.status, p.1.body)) = .ok (200, []) := by
  by_cases hm : r.Method = str "OPTIONS"
  · rw [ServeHTTP_options env (some s) r world hm]; rfl
  · rw [ServeHTTP_webhook env s r world hm hp]
    simp [Server.handleWebhook, hparse, rangeEvents_eq, bind, Except.bind, pure, Except.pure,
      Except.map]
    decide

theorem webhook_acknowledged_witness :
    ((request "POST" "/webhook").URL.Path = str "/webhook"
      ∧ (ServeHTTP (envOk sampleBatch ⟨[], []⟩) (some okServer) (request "POST" "/webhook")
          World.start).map (fun p => (p.1.status, p.1.body)) = .ok (200, []))
    ∧ (ServeHTTP (envOk [] ⟨[], []⟩) (some okServer) (request "POST" "/webhook")
          World.start).map (fun p => (p.1.status, p.1.body)) = .ok (200, []) :=
  ⟨⟨by decide,
    webhook_acknowledged (envOk sampleBatch ⟨[], []⟩) okServer (request "POST" "/webhook")
      World.start ⟨sampleBatch⟩ (by decide) rfl⟩,
   webhook_acknowledged (envOk [] ⟨[], []⟩) okServer (request "POST" "/webhook")
     World.start ⟨[]⟩ (by decide) rfl⟩

/-! ## The push path -/

/-- C5: in the ready state, a POST to `/send` whose body does not decode, or
decodes to an empty group id or an empty message, is answered with status 400
and nothing is pushed (nor handed to the sink). -/
theorem send_validation (env : Env) (s : Server) (r : Request) (world : World)
    (hm : r.Method = str "POST") (hp : r.URL.Path = str "/send")
    (hbad : (∃ e, env.Decode r.Body = .error e)
      ∨ ∃ req, env.Decode r.Body = .ok req ∧ (req.GroupID = [] ∨ req.Message = [])) :
    (ServeHTTP env (some s) r world).map observe = .ok ⟨400, [], world⟩ := by
  have hm1 : r.Method ≠ str "OPTIONS" := by rw [hm]; exact post_ne_options
  rw [ServeHTTP_send env s r world hm1 hp, sendMessage_eq]
  rcases hbad with ⟨e, he⟩ | ⟨req, hreq, hempty⟩
  · simp only [hm, he, ne_eq, not_true_eq_false, if_false]
    rfl
  · simp only [hm, hreq, hempty, ne_eq, not_true_eq_false, if_false, if_true]
    rfl

theorem send_validation_witness :
    ((request "POST" "/send").Method = str "POST"
      ∧ (ServeHTTP (envOk [] ⟨str "", str "hi"⟩) (some okServer) (request "POST" "/send")
          World.start).map observe = .ok ⟨400, [], World.start⟩)
    ∧ (ServeHTTP (envOk [] ⟨str "G1", str ""⟩) (some okServer) (request "POST" "/send")
          World.start).map observe = .ok ⟨400, [], World.start⟩
    ∧ (ServeHTTP (envErr (.other (str "invalid character"))) (some okServer)
          (request "POST" "/send") World.start).map observe = .ok ⟨400, [], World.start⟩ :=
  ⟨⟨by decide,
    send_validation (envOk [] ⟨str "", str "hi"⟩) okServer (request "POST" "/send") World.start
      (by decide) (by decide) (Or.inr ⟨⟨str "", str "hi"⟩, rfl, Or.inl (by decide)⟩)⟩,
   send_validation (envOk [] ⟨str "G1", str ""⟩) okServer (request "POST" "/send") World.start
     (by decide) (by decide) (Or.inr ⟨⟨str "G1", str ""⟩, rfl, Or.inr (by decide)⟩),
   send_validation (envErr (.other (str "invalid character"))) okServer (request "POST" "/send")
     World.start (by decide) (by decide) (Or.inl ⟨_, rfl⟩)⟩

/-- C6: in the ready state, a POST to `/send` whose body decodes to a non-empty
group id and a non-empty message submits exactly one push request, addressed
to the group id and holding the single text message; when the submission
fails the status is 500, and when it succeeds the status is 200 and the body is
the JSON object with `status` set to `success`. -/
theorem send_dispatch (env : Env) (s : Server) (r : Request) (world : World) (req : SendReq)
    (hm : r.Method = str "POST") (hp : r.URL.Path = str "/send")
    (hd : env.Decode r.Body = .ok req) (hg : req.GroupID ≠ []) (ht : req.Message ≠ []) :
    (ServeHTTP env (some s) r world).map observe
      = .ok
        ⟨if (s.bot.PushMessage
              { To := req.GroupID, Messages := [.TextMessage { Text := req.Message }] }
              (str "")).isSome then 500 else 200,
         if (s.bot.PushMessage
              { To := req.GroupID, Messages := [.TextMessage { Text := req.Message }] }
              (str "")).isSome then [] else [[(str "status", str "success")]],
         { notified := world.notified
           pushed := world.pushed ++
             [({ To := req.GroupID, Messages := [.TextMessage { Text := req.Message }] },
               str "")] }⟩ := by
  have hm1 : r.Method ≠ str "OPTIONS" := by rw [hm]; exact post_ne_options
  rw [ServeHTTP_send env s r world hm1 hp, sendMessage_eq]
  simp only [hm, hd, hg, ht, ne_eq, not_true_eq_false, if_false, or_self, pushRequestOf]
  cases s.bot.PushMessage ⟨req.GroupID, [.TextMessage ⟨req.Message⟩]⟩ (str "") <;> rfl

theorem send_dispatch_witness :
    ((request "POST" "/send").Method = str "POST" ∧ str "G1" ≠ [] ∧ str "hi" ≠ []
      ∧ (ServeHTTP (envOk [] ⟨str "G1", str "hi"⟩) (some okServer) (request "POST" "/send")
          World.start).map observe
        = .ok ⟨200, [[(str "status", str "success")]],
            { notified := [],
              pushed := [({ To := str "G1", Messages := [.TextMessage { Text := str "hi" }] },
                          str "")] }⟩)
    ∧ (ServeHTTP (envOk [] ⟨str "G1", str "hi"⟩) (some failingServer) (request "POST" "/send")
          World.start).map observe
        = .ok ⟨500, [],
            { notified := [],
              pushed := [({ To := str "G1", Messages := [.TextMessage { Text := str "hi" }] },
                          str "")] }⟩ :=
  ⟨⟨by decide, by decide, by decide,
    send_dispatch (envOk [] ⟨str "G1", str "hi"⟩) okServer (request "POST" "/send") World.start
      ⟨str "G1", str "hi"⟩ (by decide) (by decide) rfl (by decide) (by decide)⟩,
   send_dispatch (envOk [] ⟨str "G1", str "hi"⟩) failingServer (request "POST" "/send")
     World.start ⟨str "G1", str "hi"⟩ (by decide) (by decide) rfl (by decide) (by decide)⟩

/-! ## The router -/

/-- C10: a request with method OPTIONS, whatever its path and whether or not
the server is set up, is answered with status 200, an empty body and the three
CORS headers, and nothing is handed to the sink or pushed. -/
theorem options_short_circuit (env : Env) (server : Option Server) (r : Request)
    (world : World) (hm : r.Method = str "OPTIONS") :
    ∃ resp, ServeHTTP env server r world = .ok (resp, world)
      ∧ resp.status = 200 ∧ resp.body = []
      ∧ resp.header.Get (str "Access-Control-Allow-Origin") = str "*"
      ∧ resp.header.Get (str "Access-Control-Allow-Methods") = str "GET, POST, OPTIONS"
      ∧ resp.header.Get (str "Access-Control-Allow-Headers") = str "Content-Type" :=
  ⟨_, ServeHTTP_options env server r world hm, rfl, rfl, by decide, by decide, by decide⟩

theorem options_short_circuit_witness :
    ((request "OPTIONS" "/webhook").Method = str "OPTIONS"
      ∧ ∃ resp, ServeHTTP (envOk sampleBatch ⟨str "G1", str "hi"⟩) (some okServer)
            (request "OPTIONS" "/webhook") World.start = .ok (resp, World.start)
          ∧ resp.status = 200 ∧ resp.body = []
          ∧ resp.header.Get (str "Access-Control-Allow-Origin") = str "*"
          ∧ resp.header.Get (str "Access-Control-Allow-Methods") = str "GET, POST, OPTIONS"
          ∧ resp.header.Get (str "Access-Control-Allow-Headers") = str "Content-Type")
    ∧ ∃ resp, ServeHTTP (envOk sampleBatch ⟨str "G1", str "hi"⟩) none
            (request "OPTIONS" "/nowhere") World.start = .ok (resp, World.start)
          ∧ resp.status = 200 ∧ resp.body = []
          ∧ resp.header.Get (str "Access-Control-Allow-Origin") = str "*"
          ∧ resp.header.Get (str "Access-Control-Allow-Methods") = str "GET, POST, OPTIONS"
          ∧ resp.header.Get (str "Access-Control-Allow-Headers") = str "Content-Type" :=
  ⟨⟨by decide,
    options_short_circuit (envOk sampleBatch ⟨str "G1", str "hi"⟩) (some okServer)
      (request "OPTIONS" "/webhook") World.start (by decide)⟩,
   options_short_circuit (envOk sampleBatch ⟨str "G1", str "hi"⟩) none
     (request "OPTIONS" "/nowhere") World.start (by decide)⟩

/-- C7: without a server, every request to `/webhook` or `/send` whose method
is not OPTIONS is answered with status 500 and the JSON object with `error` set
to "Server not initialized", and nothing is handed to the sink or pushed; with
or without a server, every request to `/health` or `/` is answered with
status 200. -/
theorem degraded_state (env : Env) (r : Request) (world : World) :
    (r.Method ≠ str "OPTIONS" → (r.URL.Path = str "/webhook" ∨ r.URL.Path = str "/send") →
        (ServeHTTP env none r world).map observe
          = .ok ⟨500, [[(str "error", str "Server not initialized")]], world⟩)
      ∧ ∀ server : Option Server, (r.URL.Path = str "/health" ∨ r.URL.Path = str "/") →
          (ServeHTTP env server r world).map (fun p => p.1.status) = .ok 200 := by
  refine ⟨fun hm hp => ?_, fun server hp => ?_⟩
  · rw [ServeHTTP_uninitialized env r world hm hp]; rfl
  · by_cases hm : r.Method = str "OPTIONS"
    · rw [ServeHTTP_options env server r world hm]; rfl
    · rcases hp with hp | hp
      · have h := ServeHTTP_health env server r world hm hp
        cases hrun : ServeHTTP env server r world with
        | error e => rw [hrun] at h; cases h
        | ok p =>
          rw [hrun] at h
          simp only [Except.map, observe, Except.ok.injEq, Observed.mk.injEq] at h
          simp [Except.map, h.1]
      · have h := ServeHTTP_root env server r world hm hp
        cases hrun : ServeHTTP env server r world with
        | error e => rw [hrun] at h; cases h
        | ok p =>
          rw [hrun] at h
          simp only [Except.map, observe, Except.ok.injEq, Observed.mk.injEq] at h
          simp [Except.map, h.1]

theorem degraded_state_witness :
    (ServeHTTP (envOk sampleBatch ⟨str "G1", str "hi"⟩) none (request "POST" "/webhook")
        World.start).map observe
      = .ok ⟨500, [[(str "error", str "Server not initialized")]], World.start⟩
    ∧ (ServeHTTP (envOk sampleBatch ⟨str "G1", str "hi"⟩) none (request "POST" "/send")
        World.start).map observe
      = .ok ⟨500, [[(str "error", str "Server not initialized")]], World.start⟩
    ∧ (ServeHTTP (envOk sampleBatch ⟨str "G1", str "hi"⟩) none (request "GET" "/health")
        World.start).map (fun p => p.1.status) = .ok 200
    ∧ (ServeHTTP (envOk sampleBatch ⟨str "G1", str "hi"⟩) (some okServer) (request "GET" "/")
        World.start).map (fun p => p.1.status) = .ok 200 :=
  ⟨(degraded_state (envOk sampleBatch ⟨str "G1", str "hi"⟩) (request "POST" "/webhook")
      World.start).1 (by decide) (Or.inl (by decide)),
   (degraded_state (envOk sampleBatch ⟨str "G1", str "hi"⟩) (request "POST" "/send")
      World.start).1 (by decide) (Or.inr (by decide)),
   (degraded_state (envOk sampleBatch ⟨str "G1", str "hi"⟩) (request "GET" "/health")
      World.start).2 none (Or.inl (by decide)),
   (degraded_state (envOk sampleBatch ⟨str "G1", str "hi"⟩) (request "GET" "/")
      World.start).2 (some okServer) (Or.inr (by decide))⟩

/-- C8: the code breaks the claim.  The router answers its own failures with
a JSON object that has an `error` member (the 500 of `/send` and `/webhook`
without a server, the 404 of an unknown path), but `sendMessage` and
`handleWebhook` answer theirs with a bare status line: a POST to `/send` gets
status 500 with the error object when the server is not set up and status 500
with an empty body when the push fails, and the 405 and 400 of `sendMessage`
and the 400 and 500 of `handleWebhook` have an empty body as well. -/
theorem failure_bodies_diverge :
    (ServeHTTP (envOk [] ⟨str "G1", str "hi"⟩) none (request "POST" "/send")
        World.start).map (fun p => (p.1.status, p.1.body))
      = .ok (500, [[(str "error", str "Server not initialized")]])
    ∧ (ServeHTTP (envOk [] ⟨str "G1", str "hi"⟩) (some failingServer) (request "POST" "/send")
        World.start).map (fun p => (p.1.status, p.1.body)) = .ok (500, [])
    ∧ (ServeHTTP (envOk [] ⟨str "G1", str "hi"⟩) (some okServer) (request "GET" "/send")
        World.start).map (fun p => (p.1.status, p.1.body)) = .ok (405, [])
    ∧ (ServeHTTP (envOk [] ⟨str "", str "hi"⟩) (some okServer) (request "POST" "/send")
        World.start).map (fun p => (p.1.status, p.1.body)) = .ok (400, [])
    ∧ (ServeHTTP (envErr (.other (str "invalid character"))) (some okServer)
        (request "POST" "/send") World.start).map (fun p => (p.1.status, p.1.body))
      = .ok (400, [])
    ∧ (ServeHTTP (envErr .ErrInvalidSignature) (some okServer) (request "POST" "/webhook")
        World.start).map (fun p => (p.1.status, p.1.body)) = .ok (400, [])
    ∧ (ServeHTTP (envErr (.other (str "body read failure"))) (some okServer)
        (request "POST" "/webhook") World.start).map (fun p => (p.1.status, p.1.body))
      = .ok (500, [])
    ∧ (ServeHTTP (envOk [] ⟨str "G1", str "hi"⟩) (some okServer) (request "GET" "/nowhere")
        World.start).map (fun p => (p.1.status, p.1.body))
      = .ok (404, [[(str "error", str "Not Found")]]) :=
  ⟨by decide, by decide, by decide, by decide, by decide, by decide, by decide, by decide⟩

end LineTripList
